import Mathlib

/-!
Verification of the classroom question-and-answer collection application
(`app.py`): a shallow embedding of its SQLite schema and its data-access
functions, together with proofs about the submission draft state machine,
the attendance/participation ledger, the scoring aggregator and the
teacher query layer.

Machine model: each SQLite table is a list of rows kept in insertion
order (SQLite appends new rows at the end of the table scan order used by
the queries here); `ON CONFLICT REPLACE` deletes the conflicting row and
appends the new one; `INSERT OR IGNORE` is a no-op when the unique key is
already present.  SQL `REAL` values written by the application are always
produced from user-entered decimal numbers, so they are modelled by `ℚ`.
-/

namespace Score5002

/-- A row of the `answers` table (`id` autoincrement column omitted:
no behaviour proved here reads it). -/
structure AnswerRow where
  student_id : String
  date_week : String
  question_no : Nat
  question : String
  answer : String
  group_name : String
  checked : Bool
deriving Repr, DecidableEq

/-- A row of the `questions` table. -/
structure QuestionRow where
  date_week : String
  question_no : Nat
  question : String
deriving Repr, DecidableEq

/-- A row of the `student_logins` table (`logged_at` timestamp omitted:
it is `CURRENT_TIMESTAMP`, outside the pure model, and no claim proved
here depends on its value). -/
structure LoginRow where
  student_id : String
  date_week : String
deriving Repr, DecidableEq

/-- A row of the `class_scores` table. -/
structure ClassScoreRow where
  student_id : String
  date_week : String
  score : ℚ
  note : String
deriving Repr, DecidableEq

/-- A row of the `participation` table. -/
structure ParticipationRow where
  student_id : String
  date_week : String
  participation : Int
deriving Repr, DecidableEq

/-- The singleton `score_weights` row (`id = 1`). -/
structure WeightsRow where
  w_answers : ℚ
  w_class : ℚ
  w_part : ℚ
deriving Repr, DecidableEq

/-- Model of Python `str.strip()`: drop leading and trailing whitespace
(modelled on the ASCII whitespace characters `Char.isWhitespace`
recognises). -/
def pyStrip (s : String) : String :=
  ⟨((s.data.dropWhile Char.isWhitespace).reverse.dropWhile
      Char.isWhitespace).reverse⟩

/-- The whole database. -/
structure Store where
  answers : List AnswerRow
  questions : List QuestionRow
  logins : List LoginRow
  class_scores : List ClassScoreRow
  participation : List ParticipationRow
  score_weights : Option WeightsRow
deriving Repr, DecidableEq

/-- The freshly initialised database (`init_db` creates empty tables). -/
def emptyStore : Store :=
  { answers := [], questions := [], logins := [], class_scores := [],
    participation := [], score_weights := none }

/-! ### `save_answers` and the answers table -/

/-- The row inserted by `save_answers` for one `(qno, qtext, ans)`
triple: `group_name.strip()` is shared across the batch, `checked = 0`. -/
def submittedRow (student_id date_week group_name : String)
    (t : Nat × String × String) : AnswerRow :=
  { student_id := student_id, date_week := date_week, question_no := t.1,
    question := t.2.1, answer := t.2.2, group_name := pyStrip group_name,
    checked := false }

/-- Model of `save_answers(student_id, date_week, qa_list, group_name)`:
`DELETE FROM answers WHERE student_id=? AND date_week=?`, then one
`INSERT` per triple of `qa_list`. -/
def save_answers (student_id date_week : String)
    (qa_list : List (Nat × String × String)) (group_name : String)
    (st : Store) : Store :=
  { st with answers := st.answers.filter (fun r => !(r.student_id == student_id && r.date_week == date_week)) ++ qa_list.map (submittedRow student_id date_week group_name) }

/-- The `answers` rows of a given `(student_id, date_week)` pair, in
table order. -/
def answerRowsFor (student_id date_week : String) (st : Store) :
    List AnswerRow :=
  st.answers.filter
    (fun r => r.student_id == student_id && r.date_week == date_week)

/-! ### `student_logins` -/

/-- Model of `log_student_login`: returns unchanged when either argument is the
empty string (Python falsiness of `str`); otherwise
`INSERT OR IGNORE` against `UNIQUE(student_id, date_week)`. -/
def log_student_login (student_id date_week : String) (st : Store) :
    Store :=
  if student_id = "" ∨ date_week = "" then st
  else if st.logins.any
      (fun r => r.student_id == student_id && r.date_week == date_week) then
    st
  else { st with logins := st.logins ++ [⟨student_id, date_week⟩] }

/-- The `student_logins` rows of a given pair, in table order. -/
def loginRowsFor (student_id date_week : String) (st : Store) :
    List LoginRow :=
  st.logins.filter
    (fun r => r.student_id == student_id && r.date_week == date_week)

/-! ### `participation` -/

/-- Model of `save_participation_counts(date_week, participation_rows)`: one
`INSERT` per `(student_id, count)` against
`UNIQUE(student_id, date_week) ON CONFLICT REPLACE`, i.e. the old row of
the pair is dropped and the new one appended. -/
def save_participation_counts (date_week : String)
    (rows : List (String × Int)) (st : Store) : Store :=
  rows.foldl
    (fun st p =>
      let kept := st.participation.filter
        (fun r => !(r.student_id == p.1 && r.date_week == date_week))
      { st with participation := kept ++ [⟨p.1, date_week, p.2⟩] })
    st

/-- The `participation` rows of a given pair, in table order. -/
def participationRowsFor (student_id date_week : String) (st : Store) :
    List ParticipationRow :=
  st.participation.filter
    (fun r => r.student_id == student_id && r.date_week == date_week)

/-! ### `questions`: the question-set resolver and the instructor save -/

/-- The built-in fixed default question list. -/
def DEFAULT_QUESTIONS : List String :=
  ["Explain one key concept you learned today.",
   "Give an example related to the concept.",
   "What is one question you still have?"]

/-- The `questions` rows of a given `date_week`, in table order. -/
def questionRowsFor (date_week : String) (st : Store) : List QuestionRow :=
  st.questions.filter (fun r => r.date_week == date_week)

/-- The `ORDER BY question_no` comparison on `questions` rows. -/
def qnoLE (a b : QuestionRow) : Prop := a.question_no ≤ b.question_no

instance : DecidableRel qnoLE := fun a b => Nat.decLe a.question_no b.question_no

instance : IsTotal QuestionRow qnoLE :=
  ⟨fun a b => Nat.le_total a.question_no b.question_no⟩

instance : IsTrans QuestionRow qnoLE :=
  ⟨fun _ _ _ h h' => Nat.le_trans h h'⟩

/-- Model of `load_questions(date_week)`: `None` or `""` (Python falsiness) gives
the default list; otherwise the stored rows of that date ordered by
`question_no`, falling back to the default list when the query result is
empty (the trailing `len(q) > 0` guard of the Python code included). -/
def load_questions (date_week : Option String) (st : Store) : List String :=
  match date_week with
  | none => DEFAULT_QUESTIONS
  | some d =>
    if d = "" then DEFAULT_QUESTIONS
    else
      let rows := questionRowsFor d st
      if rows.isEmpty then DEFAULT_QUESTIONS
      else
        let q := (List.insertionSort qnoLE rows).map (fun r => r.question)
        if q.length > 0 then q else DEFAULT_QUESTIONS

/-- The insert loop of `save_question_set`: `enumerate(stripped, start=1)`
with `if q:` — a blank entry is skipped but still consumes its ordinal. -/
def insertQuestionLoop (date_week : String) : Nat → List String → List QuestionRow
  | _, [] => []
  | idx, q :: rest =>
    (if q = "" then [] else [⟨date_week, idx, q⟩])
    ++ insertQuestionLoop date_week (idx + 1) rest

/-- Model of `save_question_set(date_week, questions)`: delete all rows of the
date, then run the insert loop over the stripped entries. -/
def save_question_set (date_week : String) (questions : List String)
    (st : Store) : Store :=
  let kept := st.questions.filter (fun r => !(r.date_week == date_week))
  { st with questions :=
      kept ++ insertQuestionLoop date_week 1 (questions.map pyStrip) }

/-- 1-based enumeration, used to state which ordinal each submitted
entry occupies. -/
def enumTw {α : Type} : Nat → List α → List (Nat × α)
  | _, [] => []
  | i, a :: t => (i, a) :: enumTw (i + 1) t

/-! ### `score_weights` and the all-time aggregator -/

/-- Model of `load_score_weights()`: the singleton row, or `(1.0, 1.0, 1.0)` when
none is saved yet (the columns are `NOT NULL`, so the per-column `None`
fallbacks of the Python code never fire). -/
def load_score_weights (st : Store) : ℚ × ℚ × ℚ :=
  match st.score_weights with
  | none => (1, 1, 1)
  | some w => (w.w_answers, w.w_class, w.w_part)

/-- Model of `save_score_weights`: upsert of the singleton row. -/
def save_score_weights (w_answers w_class w_part : ℚ) (st : Store) : Store :=
  { st with score_weights := some ⟨w_answers, w_class, w_part⟩ }

/-- The dictionary built from
`SELECT student_id, COUNT(*) FROM answers GROUP BY student_id`:
a student is present exactly when they have at least one row. -/
def answerCountsAll (st : Store) (sid : String) : Option Nat :=
  let n := (st.answers.filter (fun r => r.student_id == sid)).length
  if n = 0 then none else some n

/-- The dictionary built from
`SELECT student_id, SUM(score) FROM class_scores GROUP BY student_id`. -/
def activityScoresAll (st : Store) (sid : String) : Option ℚ :=
  let rows := st.class_scores.filter (fun r => r.student_id == sid)
  if rows.isEmpty then none else some ((rows.map (fun r => r.score)).sum)

/-- The dictionary built from
`SELECT student_id, SUM(participation) FROM participation GROUP BY student_id`. -/
def participationAll (st : Store) (sid : String) : Option Int :=
  let rows := st.participation.filter (fun r => r.student_id == sid)
  if rows.isEmpty then none
  else some ((rows.map (fun r => r.participation)).sum)

/-- The per-student row loop of the all-time total tab:
`ans = answer_counts_all.get(sid, 0)`,
`act = activity_scores_all.get(sid, 0.0) or 0.0`,
`part = participation_all.get(sid, 0) or 0`,
`final_score = ans * w_answers + act * w_class + part * w_part`. -/
def finalScoreAll (sid : String) (w_answers w_class w_part : ℚ)
    (st : Store) : ℚ :=
  let ans : Nat := (answerCountsAll st sid).getD 0
  let act : ℚ := (activityScoresAll st sid).getD 0
  let part : Int := (participationAll st sid).getD 0
  (ans : ℚ) * w_answers + act * w_class + (part : ℚ) * w_part

/-! ### The teacher query layer (`load_answers`) -/

/-- Lower-casing of the ASCII letters, the normalisation the SQLite
default `LIKE` applies to both operands. -/
def asciiLower (c : Char) : Char :=
  if 'A' ≤ c ∧ c ≤ 'Z' then Char.ofNat (c.toNat + 32) else c

/-- Predicate `listStartsWith needle hay`: `needle` is an initial segment of
`hay` (character-exact). -/
def listStartsWith : List Char → List Char → Bool
  | [], _ => true
  | _ :: _, [] => false
  | a :: as, b :: bs => a == b && listStartsWith as bs

/-- All suffixes of a list, longest first (the list itself down to `[]`). -/
def tailsL {α : Type} : List α → List (List α)
  | [] => [[]]
  | a :: t => (a :: t) :: tailsL t

/-- SQLite `LIKE` matching (no `ESCAPE` clause): `%` matches any
sequence, `_` any single character, and ordinary characters compare
case-insensitively on ASCII. -/
def likeMatch : List Char → List Char → Bool
  | [], s => s.isEmpty
  | p :: ps, s =>
    if p = '%' then (tailsL s).any (fun t => likeMatch ps t)
    else
      match s with
      | [] => false
      | c :: t =>
        (if p = '_' then true else asciiLower p == asciiLower c)
        && likeMatch ps t

/-- The pattern `f"%{student_search}%"` built by `load_answers`. -/
def likePat (search : String) : List Char := '%' :: (search.data ++ ['%'])

/-- The `WHERE` clause of `load_answers`: optional exact `date_week`
match and optional `student_id LIKE '%search%'`, conjoined. -/
def answerKeep (date_week : Option String) (search : String)
    (r : AnswerRow) : Bool :=
  (match date_week with
   | none => true
   | some d => if d = "" then true else r.date_week == d)
  && (if search = "" then true else likeMatch (likePat search) r.student_id.data)

/-- The `ORDER BY student_id, question_no` comparison on `answers` rows. -/
def answerOrd (a b : AnswerRow) : Prop :=
  a.student_id.data < b.student_id.data
  ∨ (a.student_id.data = b.student_id.data ∧ a.question_no ≤ b.question_no)

instance : DecidableRel answerOrd := fun a b => by
  unfold answerOrd; infer_instance

instance : IsTotal AnswerRow answerOrd :=
  ⟨fun a b => by
    rcases lt_trichotomy a.student_id.data b.student_id.data with h | h | h
    · exact Or.inl (Or.inl h)
    · rcases Nat.le_total a.question_no b.question_no with h' | h'
      · exact Or.inl (Or.inr ⟨h, h'⟩)
      · exact Or.inr (Or.inr ⟨h.symm, h'⟩)
    · exact Or.inr (Or.inl h)⟩

instance : IsTrans AnswerRow answerOrd :=
  ⟨fun a b c hab hbc => by
    rcases hab with hab | ⟨hab, hab'⟩
    · rcases hbc with hbc | ⟨hbc, _⟩
      · exact Or.inl (hab.trans hbc)
      · exact Or.inl (hbc ▸ hab)
    · rcases hbc with hbc | ⟨hbc, hbc'⟩
      · exact Or.inl (hab ▸ hbc)
      · exact Or.inr ⟨hab.trans hbc, hab'.trans hbc'⟩⟩

/-- Model of `load_answers(date_week, student_search)`: filter, then
`ORDER BY student_id, question_no`.  A pure read: the store is not an
output of the function. -/
def load_answers (date_week : Option String) (search : String)
    (st : Store) : List AnswerRow :=
  List.insertionSort answerOrd (st.answers.filter (answerKeep date_week search))

/-- Case-sensitive substring containment on character lists — the
relation the specification wording describes for the student filter. -/
def containsSeq (needle hay : List Char) : Bool :=
  (tailsL hay).any (fun t => listStartsWith needle t)

/-! ### The submission draft state machine (the Student tab session
state and its button handlers) -/

/-- The per-session draft: the `st.session_state` fields `current_questions`,
`answers`, `q_index`, `show_preview` and `group_name`. -/
structure Draft where
  current_questions : List String
  answers : List String
  q_index : Nat
  show_preview : Bool
  group_name : String
deriving Repr, DecidableEq

/-- The START handler: resolve the question set (clamped to one blank
slot when empty), blank same-length answers, cursor 0, no preview,
blank group. -/
def startDraft (question_set : List String) : Draft :=
  let qs := if question_set.isEmpty then [""] else question_set
  { current_questions := qs, answers := List.replicate qs.length "",
    q_index := 0, show_preview := false, group_name := "" }

/-- The normalisation every rerun of the Student tab performs before the
buttons are evaluated: an empty slot list is forced to one blank slot
(with blank answers), the cursor is clamped into `[0, total-1]`, and
`answers` is length-synchronised to `total` by pad-then-truncate. -/
def sync (d : Draft) : Draft :=
  let qs := if d.current_questions.length = 0 then [""]
            else d.current_questions
  let ans0 := if d.current_questions.length = 0 then [""] else d.answers
  let total := qs.length
  let ans := if ans0.length = total then ans0
             else (ans0 ++ List.replicate total "").take total
  { current_questions := qs, answers := ans,
    q_index := min d.q_index (total - 1),
    show_preview := d.show_preview, group_name := d.group_name }

/-- Model of `allow_next`: the trimmed answer at the (clamped) cursor is
non-blank.  The question text is not consulted. -/
def allow_next (d : Draft) : Bool :=
  (pyStrip (d.answers.getD d.q_index "") != "")

/-- The Next button is enabled iff
`not ((q_idx >= total - 1) or (not allow_next))`. -/
def canNext (d : Draft) : Bool :=
  (decide (d.q_index < d.current_questions.length - 1)) && allow_next d

/-- The Back button is enabled iff `not (q_idx == 0)`. -/
def canBack (d : Draft) : Bool := decide (d.q_index ≠ 0)

/-- The draft transitions: the Back, Next and Add-Question buttons and
the per-rerun writes of the question box, answer box and group box. -/
inductive DraftOp where
  | back : DraftOp
  | next : DraftOp
  | append : DraftOp
  | editQuestion (s : String) : DraftOp
  | editAnswer (s : String) : DraftOp
  | setGroup (s : String) : DraftOp
deriving Repr, DecidableEq

/-- One user action on the synchronised draft.  A disabled button is a
no-op (it cannot be pressed).  `back` sets `q_index = max(0, q_idx-1)`
(`Nat` subtraction), `next` sets `q_index = min(total-1, q_idx+1)`,
`append` adds one blank question and one blank answer and jumps to the
new last index; the three movement actions clear the preview flag, the
edits do not. -/
def step (d : Draft) (op : DraftOp) : Draft :=
  let e := sync d
  match op with
  | .back =>
    if canBack e then { e with q_index := e.q_index - 1, show_preview := false }
    else e
  | .next =>
    if canNext e then
      { e with q_index := min (e.current_questions.length - 1) (e.q_index + 1),
               show_preview := false }
    else e
  | .append =>
    { e with current_questions := e.current_questions ++ [""],
             answers := e.answers ++ [""],
             q_index := e.current_questions.length,
             show_preview := false }
  | .editQuestion s =>
    { e with current_questions := e.current_questions.set e.q_index s }
  | .editAnswer s =>
    { e with answers := e.answers.set e.q_index s }
  | .setGroup s =>
    { e with group_name := pyStrip s }

/-- A whole interaction: the actions applied in order. -/
def runOps (d : Draft) (ops : List DraftOp) : Draft := ops.foldl step d

/-- Model of `all_filled`: every answer slot (up to the question count), trimmed,
is non-blank.  Question-text blankness is not checked. -/
def all_filled (d : Draft) : Bool :=
  (d.answers.take d.current_questions.length).all (fun a => pyStrip a != "")

/-- The `qa` list built by the SUBMIT handler:
`(i + 1, (questions[i] or "").strip(), answers[i].strip())` for
`i in range(total)`. -/
def submitQA (d : Draft) : List (Nat × String × String) :=
  (List.range d.current_questions.length).map
    (fun i => (i + 1, pyStrip (d.current_questions.getD i ""),
               pyStrip (d.answers.getD i "")))

/-- The SUBMIT button: enabled only when `all_filled` holds (the
rendering layer additionally shows it only inside the preview pane);
when pressed it calls
`save_answers(student_id.strip(), date_week.strip(), qa, group_name)`. -/
def submitDraft (student_id date_week : String) (d : Draft) (st : Store) :
    Store :=
  let e := sync d
  if all_filled e then
    save_answers (pyStrip student_id) (pyStrip date_week) (submitQA e)
      e.group_name st
  else st

/-! ### Shared lemmas -/

theorem filter_not_filter {α : Type} (p : α → Bool) (l : List α) :
    (l.filter (fun a => !(p a))).filter p = [] := by
  induction l with
  | nil => rfl
  | cons a t ih => cases hp : p a <;> simp [List.filter_cons, hp, ih]

theorem filter_map_of_all {α β : Type} (p : β → Bool) (f : α → β)
    (l : List α) (h : ∀ a, p (f a) = true) :
    (l.map f).filter p = l.map f := by
  induction l with
  | nil => rfl
  | cons a t ih => simp [List.filter_cons, h a, ih]

/-- After `save_answers S D qa g`, the rows of the pair `(S, D)` are
exactly the freshly inserted batch, in batch order. -/
theorem answerRowsFor_save (S D g : String)
    (qa : List (Nat × String × String)) (st : Store) :
    answerRowsFor S D (save_answers S D qa g st)
      = qa.map (submittedRow S D g) := by
  unfold answerRowsFor save_answers
  simp only [List.filter_append]
  rw [filter_not_filter, filter_map_of_all, List.nil_append]
  intro t
  simp [submittedRow]

/-! ### C1 -/

/-- C1: submitting an answer set for `(S, D)` first deletes all existing
`answers` rows of the pair and then inserts one row per slot, so after
any two successive submissions exactly `len(second_submission)` rows
exist for `(S, D)` — never the union of both submissions. -/
theorem C1_replace_semantics (S D g1 g2 : String)
    (qa1 qa2 : List (Nat × String × String)) (st : Store) :
    (answerRowsFor S D
        (save_answers S D qa2 g2 (save_answers S D qa1 g1 st))).length
      = qa2.length := by
  rw [answerRowsFor_save, List.length_map]

/-! ### C2 -/

/-- C2: after any sequence of draft transitions (Append, Next, Back —
and the free slot edits) followed by a Submit, the committed `answers`
rows of that submission carry ordinals exactly `1..N` (`N` = final slot
count) with no gaps or repeats, and each row stores the stripped
question text, the stripped answer text, the shared stripped
`group_name`, and `checked = false`. -/
theorem C2_ordinal_contiguity (S D : String) (qs0 : List String)
    (ops : List DraftOp) (st : Store)
    (h : all_filled (sync (runOps (startDraft qs0) ops)) = true) :
    answerRowsFor (pyStrip S) (pyStrip D)
        (submitDraft S D (runOps (startDraft qs0) ops) st)
      = (List.range
            (sync (runOps (startDraft qs0) ops)).current_questions.length).map
          (fun i =>
            { student_id := pyStrip S, date_week := pyStrip D,
              question_no := i + 1,
              question := pyStrip
                ((sync (runOps (startDraft qs0) ops)).current_questions.getD i ""),
              answer := pyStrip
                ((sync (runOps (startDraft qs0) ops)).answers.getD i ""),
              group_name := pyStrip
                (sync (runOps (startDraft qs0) ops)).group_name,
              checked := false })
    ∧ (answerRowsFor (pyStrip S) (pyStrip D)
          (submitDraft S D (runOps (startDraft qs0) ops) st)).map
        (fun r => r.question_no)
      = List.range' 1
          (sync (runOps (startDraft qs0) ops)).current_questions.length := by
  have hsub : submitDraft S D (runOps (startDraft qs0) ops) st
      = save_answers (pyStrip S) (pyStrip D)
          (submitQA (sync (runOps (startDraft qs0) ops)))
          (sync (runOps (startDraft qs0) ops)).group_name st := by
    rw [submitDraft]
    simp only [h, if_true]
  rw [hsub, answerRowsFor_save]
  constructor
  · simp only [submitQA, List.map_map]
    rfl
  · simp only [submitQA, List.map_map]
    have : ∀ n : Nat,
        (List.range n).map
            ((fun r : AnswerRow => r.question_no) ∘
              (submittedRow (pyStrip S) (pyStrip D)
                  (sync (runOps (startDraft qs0) ops)).group_name ∘
                fun i =>
                  (i + 1,
                    pyStrip
                      ((sync (runOps (startDraft qs0) ops)).current_questions.getD i ""),
                    pyStrip ((sync (runOps (startDraft qs0) ops)).answers.getD i ""))))
          = List.range' 1 n := by
      intro n
      rw [List.range'_eq_map_range]
      exact List.map_congr_left (fun i _ => Nat.add_comm i 1)
    exact this _

/-- Witness for C2: a concrete interaction — answer slot 1, append a
slot, answer it, set a group — then submit; the committed ordinals are
`1..2`. -/
theorem C2_ordinal_contiguity_witness :
    all_filled (sync (runOps (startDraft ["Q one"])
        [DraftOp.editAnswer " a1 ", DraftOp.append,
         DraftOp.editAnswer "a2", DraftOp.setGroup " G "])) = true
    ∧ (answerRowsFor (pyStrip " S1 ") (pyStrip "W1")
          (submitDraft " S1 " "W1"
            (runOps (startDraft ["Q one"])
              [DraftOp.editAnswer " a1 ", DraftOp.append,
               DraftOp.editAnswer "a2", DraftOp.setGroup " G "])
            emptyStore)).map (fun r => r.question_no)
      = List.range' 1
          (sync (runOps (startDraft ["Q one"])
            [DraftOp.editAnswer " a1 ", DraftOp.append,
             DraftOp.editAnswer "a2", DraftOp.setGroup " G "])).current_questions.length :=
  ⟨by decide,
    (C2_ordinal_contiguity " S1 " "W1" ["Q one"]
      [DraftOp.editAnswer " a1 ", DraftOp.append,
       DraftOp.editAnswer "a2", DraftOp.setGroup " G "]
      emptyStore (by decide)).2⟩

/-! ### C3 -/

/-- A populated store: student `S1` has 3 answer rows over two dates,
activity scores summing to `2.5`, participation summing to `4`, and the
saved weight configuration `(1.0, 2.0, 0.5)`. -/
def weightedDemoStore : Store :=
  { answers :=
      [⟨"S1", "d1", 1, "q", "a", "", false⟩,
       ⟨"S1", "d1", 2, "q", "a", "", false⟩,
       ⟨"S1", "d2", 1, "q", "a", "", false⟩],
    questions := [],
    logins := [],
    class_scores := [⟨"S1", "d1", 1, ""⟩, ⟨"S1", "d2", 3/2, ""⟩],
    participation := [⟨"S1", "d1", 3⟩, ⟨"S1", "d2", 1⟩],
    score_weights := some ⟨1, 2, 1/2⟩ }

/-- C3: the all-time view reports
`final = answers * w_answers + activity * w_class + participation * w_part`
where `answers` counts that student `answers` rows over all dates,
`activity` sums their activity scores, `participation` sums their
participation counts, and the weights come from the singleton
`score_weights` row, defaulting to `1.0` each when absent; in
particular `answers = 3`, `activity = 2.5`, `participation = 4` with
weights `(1.0, 2.0, 0.5)` yields `10.0`. -/
theorem C3_weighted_total :
    (∀ (st : Store) (sid : String),
      finalScoreAll sid (load_score_weights st).1 (load_score_weights st).2.1
          (load_score_weights st).2.2 st
        = ((st.answers.filter (fun r => r.student_id == sid)).length : ℚ)
              * (load_score_weights st).1
          + ((st.class_scores.filter (fun r => r.student_id == sid)).map
                (fun r => r.score)).sum * (load_score_weights st).2.1
          + ((((st.participation.filter (fun r => r.student_id == sid)).map
                (fun r => r.participation)).sum : Int) : ℚ)
              * (load_score_weights st).2.2)
    ∧ load_score_weights emptyStore = (1, 1, 1)
    ∧ load_score_weights weightedDemoStore = (1, 2, 1/2)
    ∧ (weightedDemoStore.answers.filter
        (fun r => r.student_id == "S1")).length = 3
    ∧ ((weightedDemoStore.class_scores.filter
        (fun r => r.student_id == "S1")).map (fun r => r.score)).sum = 5/2
    ∧ ((weightedDemoStore.participation.filter
        (fun r => r.student_id == "S1")).map (fun r => r.participation)).sum = 4
    ∧ finalScoreAll "S1" 1 2 (1/2) weightedDemoStore = 10 := by
  refine ⟨?gen, rfl, rfl, by decide, ?g5, by decide, ?g7⟩
  case g5 =>
    show ((1 : ℚ) + (3/2 + 0)) = 5/2
    norm_num
  case g7 =>
    show (((3 : Nat) : ℚ)) * 1 + ((1 : ℚ) + (3/2 + 0)) * 2
        + (((3 + (1 + 0) : Int)) : ℚ) * (1/2) = 10
    norm_num
  case gen =>
    intro st sid
    unfold finalScoreAll answerCountsAll activityScoresAll participationAll
    by_cases h1 : (st.answers.filter (fun r => r.student_id == sid)).length = 0 <;>
      by_cases h2 : (st.class_scores.filter (fun r => r.student_id == sid)) = [] <;>
        by_cases h3 : (st.participation.filter (fun r => r.student_id == sid)) = [] <;>
          simp [h1, h2, h3, List.isEmpty_iff]

/-! ### C4 -/

/-- Counterexample to C4 as stated: `" "` is blank after stripping, yet
`log_student_login(" ", "2024-01-01")` on a fresh store is not a no-op —
it inserts a login row, because the code only tests Python falsiness
(emptiness), not blankness after stripping. -/
theorem C4_counterexample :
    pyStrip " " = ""
    ∧ log_student_login " " "2024-01-01" emptyStore ≠ emptyStore
    ∧ (log_student_login " " "2024-01-01" emptyStore).logins.length = 1 := by
  refine ⟨by decide, ?_, by decide⟩
  intro h
  have : (log_student_login " " "2024-01-01" emptyStore).logins.length
      = emptyStore.logins.length := by rw [h]
  simp [log_student_login, emptyStore] at this

/-- C4 amended: `log_student_login` is a no-op when either argument is
the *empty string* (Python falsiness — not blank-after-stripping);
otherwise it is idempotent, and starting from a store with no row for
`(S, D)`, any positive number of calls leaves exactly one row for the
pair — the first write wins and later duplicates are silently
ignored. -/
theorem C4_idempotent_login (S D : String) (st : Store) :
    (S = "" → log_student_login S D st = st)
    ∧ (D = "" → log_student_login S D st = st)
    ∧ log_student_login S D (log_student_login S D st)
        = log_student_login S D st
    ∧ (S ≠ "" → D ≠ "" → loginRowsFor S D st = [] →
        ∀ n, 1 ≤ n →
          loginRowsFor S D ((fun s => log_student_login S D s)^[n] st)
            = [⟨S, D⟩]) := by
  refine ⟨fun h => by simp [log_student_login, h],
          fun h => by simp [log_student_login, h], ?_, ?_⟩
  · by_cases hb : S = "" ∨ D = ""
    · simp [log_student_login, hb]
    · by_cases hex : st.logins.any
          (fun r => r.student_id == S && r.date_week == D) = true
      · simp [log_student_login, hb, hex]
      · simp only [log_student_login, hb, if_false, hex]
        have hrow : ((st.logins ++ [(⟨S, D⟩ : LoginRow)]).any
            (fun r => r.student_id == S && r.date_week == D)) = true := by
          simp [List.any_append]
        simp [hrow]
  · intro hS hD h0
    have hb : ¬(S = "" ∨ D = "") := by
      rintro (h | h) <;> [exact hS h; exact hD h]
    have hstep : ∀ st' : Store, loginRowsFor S D st' = [⟨S, D⟩] →
        log_student_login S D st' = st' := by
      intro st' h'
      have hmem : (⟨S, D⟩ : LoginRow) ∈ st'.logins := by
        have : (⟨S, D⟩ : LoginRow) ∈ st'.logins.filter
            (fun r => r.student_id == S && r.date_week == D) := by
          rw [loginRowsFor] at h'
          rw [h']
          simp
        exact List.mem_of_mem_filter this
      have hex : st'.logins.any
          (fun r => r.student_id == S && r.date_week == D) = true := by
        rw [List.any_eq_true]
        refine ⟨⟨S, D⟩, hmem, ?_⟩
        simp
      simp [log_student_login, hb, hex]
    have hbase : loginRowsFor S D (log_student_login S D st) = [⟨S, D⟩] := by
      have hex : st.logins.any
          (fun r => r.student_id == S && r.date_week == D) = false := by
        rw [loginRowsFor, List.filter_eq_nil_iff] at h0
        rw [List.any_eq_false]
        exact h0
      rw [loginRowsFor] at h0
      simp [log_student_login, hb, hex, loginRowsFor, List.filter_append, h0]
    intro n hn
    induction n with
    | zero => omega
    | succ m ih =>
      rcases Nat.eq_zero_or_pos m with hm | hm
      · subst hm
        simpa using hbase
      · rw [Function.iterate_succ_apply']
        rw [hstep _ (ih hm)]
        exact ih hm

/-- Witness for C4 amended: two calls for `("S001", "2024-01-01")` on a
fresh store leave exactly one login row. -/
theorem C4_idempotent_login_witness :
    loginRowsFor "S001" "2024-01-01"
        ((fun s => log_student_login "S001" "2024-01-01" s)^[2] emptyStore)
      = [⟨"S001", "2024-01-01"⟩] :=
  (C4_idempotent_login "S001" "2024-01-01" emptyStore).2.2.2
    (by decide) (by decide) (by decide) 2 (by decide)

/-! ### C5 -/

theorem filter_filter_not_of_disjoint {α : Type} (q pa : α → Bool)
    (l : List α) (h : ∀ a, q a = true → pa a = false) :
    (l.filter (fun a => !(pa a))).filter q = l.filter q := by
  induction l with
  | nil => rfl
  | cons a t ih =>
    cases hq : q a
    · cases hpa : pa a <;> simp [List.filter_cons, hpa, hq, ih]
    · have := h a hq
      simp [List.filter_cons, this, hq, ih]

/-- One replace-on-conflict insert leaves exactly the new row for its
pair. -/
theorem participationRowsFor_save_single (S D : String) (c : Int)
    (st : Store) :
    participationRowsFor S D (save_participation_counts D [(S, c)] st)
      = [⟨S, D, c⟩] := by
  show ((st.participation.filter
      (fun r : ParticipationRow => !(r.student_id == S && r.date_week == D))
      ++ [(⟨S, D, c⟩ : ParticipationRow)]).filter
        (fun r : ParticipationRow => r.student_id == S && r.date_week == D))
    = [(⟨S, D, c⟩ : ParticipationRow)]
  rw [List.filter_append, filter_not_filter, List.nil_append]
  simp

/-- A batch that does not mention student `s'` leaves every
row set of that student unchanged. -/
theorem participationRowsFor_save_other (D D' s' : String)
    (rows : List (String × Int)) (st : Store)
    (h : ∀ p ∈ rows, p.1 ≠ s') :
    participationRowsFor s' D' (save_participation_counts D rows st)
      = participationRowsFor s' D' st := by
  induction rows generalizing st with
  | nil => rfl
  | cons a t ih =>
    have hfold : save_participation_counts D (a :: t) st
        = save_participation_counts D t
            (save_participation_counts D [a] st) := rfl
    rw [hfold, ih _ (fun p hp => h p (List.mem_cons_of_mem a hp))]
    have ha : a.1 ≠ s' := h a (List.mem_cons_self a t)
    show ((st.participation.filter
        (fun r : ParticipationRow => !(r.student_id == a.1 && r.date_week == D))
        ++ [(⟨a.1, D, a.2⟩ : ParticipationRow)]).filter
          (fun r : ParticipationRow => r.student_id == s' && r.date_week == D'))
      = participationRowsFor s' D' st
    rw [List.filter_append,
        filter_filter_not_of_disjoint
          (fun r : ParticipationRow => r.student_id == s' && r.date_week == D')
          (fun r : ParticipationRow => r.student_id == a.1 && r.date_week == D)]
    · have hone : ([⟨a.1, D, a.2⟩] : List ParticipationRow).filter
          (fun r => r.student_id == s' && r.date_week == D') = [] := by
        simp [List.filter_cons, beq_eq_false_iff_ne, ha]
      rw [hone, List.append_nil]
      rfl
    · intro r hr
      have : r.student_id = s' := by
        have := (Bool.and_eq_true _ _).mp hr
        exact eq_of_beq this.1
      simp [this, beq_eq_false_iff_ne]
      intro h'
      exact absurd h'.symm ha

/-- C5: saving participation counts for a date replaces the stored
count for every pair in the batch rather than incrementing it —
`[(S1, c1)]` then `[(S1, c2)]` for the same date leaves exactly one row
holding `c2` — and a student absent from the batch keeps their
previously stored rows unchanged. -/
theorem C5_participation_replace (D D' S1 s' : String) (c1 c2 : Int)
    (rows : List (String × Int)) (st : Store)
    (hs' : ∀ p ∈ rows, p.1 ≠ s') :
    participationRowsFor S1 D
        (save_participation_counts D [(S1, c2)]
          (save_participation_counts D [(S1, c1)] st))
      = [⟨S1, D, c2⟩]
    ∧ participationRowsFor s' D' (save_participation_counts D rows st)
        = participationRowsFor s' D' st :=
  ⟨participationRowsFor_save_single S1 D c2 _,
   participationRowsFor_save_other D D' s' rows st hs'⟩

/-- Witness for C5: saving `[("S1", 5)]` then `[("S1", 2)]` for date
`"d"` leaves the count at `2`, and saving `[("S2", 7)]` does not touch
`"S1"`. -/
theorem C5_participation_replace_witness :
    participationRowsFor "S1" "d"
        (save_participation_counts "d" [("S1", 2)]
          (save_participation_counts "d" [("S1", 5)] emptyStore))
      = [⟨"S1", "d", 2⟩]
    ∧ participationRowsFor "S1" "d"
          (save_participation_counts "d" [("S2", 7)] emptyStore)
        = participationRowsFor "S1" "d" emptyStore :=
  C5_participation_replace "d" "d" "S1" "S1" 5 2 [("S2", 7)] emptyStore
    (by decide)

/-! ### C6 -/

/-- C6: the resolver returns the built-in 3-question default whenever
the date label is absent or empty, or when the store has no question
rows for that label; otherwise it returns the stored questions ordered
by `question_no` ascending (a sorted permutation of the rows of that date);
it never fails. -/
theorem C6_default_fallback (st : Store) (d : String) :
    load_questions none st = DEFAULT_QUESTIONS
    ∧ load_questions (some "") st = DEFAULT_QUESTIONS
    ∧ DEFAULT_QUESTIONS.length = 3
    ∧ (questionRowsFor d st = [] →
        load_questions (some d) st = DEFAULT_QUESTIONS)
    ∧ (questionRowsFor d st ≠ [] → d ≠ "" →
        load_questions (some d) st
            = (List.insertionSort qnoLE (questionRowsFor d st)).map
                (fun r => r.question)
          ∧ List.Perm (List.insertionSort qnoLE (questionRowsFor d st))
              (questionRowsFor d st)
          ∧ List.Sorted qnoLE
              (List.insertionSort qnoLE (questionRowsFor d st))) := by
  refine ⟨rfl, rfl, rfl, ?_, ?_⟩
  · intro h
    by_cases hd : d = "" <;> simp [load_questions, hd, h]
  · intro h hd
    have h1 : (questionRowsFor d st).isEmpty = false := by
      simpa [List.isEmpty_iff] using h
    have h2 : 0 < ((List.insertionSort qnoLE (questionRowsFor d st)).map
        (fun r => r.question)).length := by
      rw [List.length_map, (List.perm_insertionSort qnoLE _).length_eq]
      exact List.length_pos.mpr h
    refine ⟨?_, List.perm_insertionSort qnoLE _,
      List.sorted_insertionSort qnoLE _⟩
    simp [load_questions, hd, h1, h2, h]

/-- A store with an out-of-order question set for date `"w1"` and
nothing for `"2099-01-01"`. -/
def questionDemoStore : Store :=
  { emptyStore with questions :=
      [⟨"w1", 2, "B"⟩, ⟨"w1", 1, "A"⟩, ⟨"w2", 1, "C"⟩] }

/-- Witness for C6: on the demo store, resolving `"w1"` returns the
stored rows sorted by ordinal, and resolving the unknown date
`"2099-01-01"` falls back to the default list. -/
theorem C6_default_fallback_witness :
    load_questions (some "w1") questionDemoStore
        = (List.insertionSort qnoLE
            (questionRowsFor "w1" questionDemoStore)).map (fun r => r.question)
    ∧ load_questions (some "2099-01-01") questionDemoStore
        = DEFAULT_QUESTIONS :=
  ⟨((C6_default_fallback questionDemoStore "w1").2.2.2.2
      (by decide) (by decide)).1,
   (C6_default_fallback questionDemoStore "2099-01-01").2.2.2.1 (by decide)⟩

/-! ### C7 -/

/-- C7: on the (synchronised) active draft, Next is unavailable
whenever the stripped answer at the cursor is blank — regardless of the
question texts, which it does not consult — and whenever the cursor is
at the last index; Back is unavailable exactly at cursor 0; both, when
available and taken, move the cursor by one, clear the preview flag and
append no slot. -/
theorem C7_advance_gate (d : Draft) :
    (pyStrip ((sync d).answers.getD (sync d).q_index "") = "" →
      canNext (sync d) = false)
    ∧ ((sync d).q_index = (sync d).current_questions.length - 1 →
      canNext (sync d) = false)
    ∧ (canBack (sync d) = false ↔ (sync d).q_index = 0)
    ∧ (∀ qs : List String, qs.length = (sync d).current_questions.length →
        canNext { (sync d) with current_questions := qs } = canNext (sync d))
    ∧ (canNext (sync d) = true →
        step d DraftOp.next
          = { (sync d) with q_index := (sync d).q_index + 1, show_preview := false })
    ∧ (canBack (sync d) = true →
        step d DraftOp.back
          = { (sync d) with q_index := (sync d).q_index - 1, show_preview := false }) := by
  refine ⟨?_, ?_, ?_, ?_, ?_, ?_⟩
  · intro h
    have ha : allow_next (sync d) = false := by
      rw [allow_next, h]
      rfl
    simp [canNext, ha]
  · intro h
    simp [canNext, h]
  · simp [canBack]
  · intro qs hq
    simp [canNext, allow_next, hq]
  · intro h
    have hlt : (sync d).q_index
        < (sync d).current_questions.length - 1 := by
      have := ((Bool.and_eq_true _ _).mp h).1
      exact of_decide_eq_true this
    simp only [step, h, if_true]
    rw [Nat.min_eq_right (by omega)]
  · intro h
    simp only [step, h, if_true]

/-- A two-slot draft with the first answer filled, cursor at 0. -/
def demoDraft : Draft :=
  { current_questions := ["q1", ""], answers := ["a", ""], q_index := 0,
    show_preview := true, group_name := "" }

/-- Witness for C7: on the demo draft Next is available and advances
the cursor by one while clearing the preview; Back is unavailable
exactly because the cursor is 0. -/
theorem C7_advance_gate_witness :
    step demoDraft DraftOp.next
        = { (sync demoDraft) with q_index := (sync demoDraft).q_index + 1, show_preview := false }
    ∧ (canBack (sync demoDraft) = false ↔ (sync demoDraft).q_index = 0) :=
  ⟨(C7_advance_gate demoDraft).2.2.2.2.1 (by decide),
   (C7_advance_gate demoDraft).2.2.1⟩

/-! ### C8 and C10: `save_question_set` -/

/-- Every row produced by the insert loop carries the date of the loop. -/
theorem insertLoop_filter_date (d : String) (i : Nat) (l : List String) :
    (insertQuestionLoop d i l).filter (fun r => r.date_week == d)
      = insertQuestionLoop d i l := by
  induction l generalizing i with
  | nil => rfl
  | cons q t ih =>
    by_cases hq : q = "" <;>
      simp [insertQuestionLoop, hq, List.filter_cons, ih]

/-- After `save_question_set d qs`, the rows of date `d` are exactly
the loop output over the stripped entries. -/
theorem questionRowsFor_save (d : String) (qs : List String) (st : Store) :
    questionRowsFor d (save_question_set d qs st)
      = insertQuestionLoop d 1 (qs.map pyStrip) := by
  show ((st.questions.filter (fun r : QuestionRow => !(r.date_week == d))
      ++ insertQuestionLoop d 1 (qs.map pyStrip)).filter
        (fun r : QuestionRow => r.date_week == d))
    = insertQuestionLoop d 1 (qs.map pyStrip)
  rw [List.filter_append, filter_not_filter, List.nil_append,
      insertLoop_filter_date]

/-- The insert loop in closed form: each entry is paired with its
1-based position, blanks are dropped, the position is kept. -/
theorem insertLoop_eq_filterMap (d : String) (i : Nat) (l : List String) :
    insertQuestionLoop d i l
      = (enumTw i l).filterMap
          (fun p => if p.2 = "" then none else some ⟨d, p.1, p.2⟩) := by
  induction l generalizing i with
  | nil => rfl
  | cons q t ih =>
    by_cases hq : q = "" <;>
      simp [insertQuestionLoop, enumTw, List.filterMap_cons, hq, ih]

/-- With no blank entry the loop numbers the rows `i, i+1, ...`
contiguously. -/
theorem insertLoop_map_no_nonblank (d : String) (l : List String)
    (h : ∀ q ∈ l, q ≠ "") :
    ∀ i, (insertQuestionLoop d i l).map (fun r => r.question_no)
      = List.range' i l.length := by
  induction l with
  | nil => intro i; rfl
  | cons q t ih =>
    intro i
    have hq : q ≠ "" := h q (List.mem_cons_self q t)
    have ht := ih (fun q hq' => h q (List.mem_cons_of_mem _ hq'))
    simp only [insertQuestionLoop, hq, if_false, List.length_cons,
      List.range'_succ, List.singleton_append, List.map_cons, ht (i + 1)]

/-- Counterexample to C8 as stated: saving the set `["", "A"]` stores
the single ordinal `2` — not the gap-free `1..K` sequence — because a
blank entry is dropped yet still consumes its position. -/
theorem C8_counterexample :
    ((save_question_set "d" ["", "A"] emptyStore).questions.map
        (fun r => r.question_no)) = [2]
    ∧ [2] ≠ List.range' 1
        ((save_question_set "d" ["", "A"] emptyStore).questions.length) := by
  exact ⟨by decide, by decide⟩

/-- C8 amended: provided every submitted entry is non-blank after
stripping, the persisted `question_no` values for the date are exactly
`1..K` (`K` = length of the submitted list), prior entries of the date
having been deleted first. -/
theorem C8_gap_free_when_nonblank (d : String) (qs : List String)
    (st : Store) (h : ∀ q ∈ qs, pyStrip q ≠ "") :
    (questionRowsFor d (save_question_set d qs st)).map
        (fun r => r.question_no)
      = List.range' 1 qs.length := by
  rw [questionRowsFor_save,
      insertLoop_map_no_nonblank d (qs.map pyStrip)
        (fun q hq => by
          rcases List.mem_map.mp hq with ⟨a, ha, rfl⟩
          exact h a ha) 1,
      List.length_map]

/-- Witness for C8 amended: saving `["A", " B "]` (both non-blank after
stripping) stores ordinals `[1, 2]`. -/
theorem C8_gap_free_when_nonblank_witness :
    (questionRowsFor "d" (save_question_set "d" ["A", " B "] emptyStore)).map
        (fun r => r.question_no)
      = List.range' 1 2 :=
  C8_gap_free_when_nonblank "d" ["A", " B "] emptyStore (by decide)

/-- C10: saving a question set drops entries that are blank after
stripping, but the ordinal of each stored row is the 1-based position of its entry
in the submitted list before dropping — the stored `question_no` values
are the original positions of the non-blank questions, not a renumbered
contiguous sequence. -/
theorem C10_ordinal_is_original_position (d : String) (qs : List String)
    (st : Store) :
    questionRowsFor d (save_question_set d qs st)
      = (enumTw 1 (qs.map pyStrip)).filterMap
          (fun p => if p.2 = "" then none else some ⟨d, p.1, p.2⟩)
    ∧ (questionRowsFor d (save_question_set d qs st)).map
          (fun r => r.question_no)
      = (enumTw 1 (qs.map pyStrip)).filterMap
          (fun p => if p.2 = "" then none else some p.1) := by
  refine ⟨by rw [questionRowsFor_save, insertLoop_eq_filterMap], ?_⟩
  rw [questionRowsFor_save, insertLoop_eq_filterMap, List.map_filterMap]
  congr 1
  funext p
  by_cases hp : p.2 = "" <;> simp [hp]

/-! ### C9: the teacher query layer -/

theorem nil_mem_tailsL (s : List Char) : [] ∈ tailsL s := by
  induction s with
  | nil => simp [tailsL]
  | cons a t ih =>
    simp only [tailsL, List.mem_cons]
    exact Or.inr ih

/-- A trailing `%` after a wildcard-free pattern matches exactly the
strings the pattern starts (case-insensitively on ASCII). -/
theorem likeMatch_append_pct (search : List Char)
    (h : ∀ c ∈ search, c ≠ '%' ∧ c ≠ '_') :
    ∀ s, likeMatch (search ++ ['%']) s
      = listStartsWith (search.map asciiLower) (s.map asciiLower) := by
  induction search with
  | nil =>
    intro s
    show likeMatch ['%'] s = _
    simp [likeMatch, listStartsWith]
    exact nil_mem_tailsL s
  | cons p ps ih =>
    intro s
    have hp := h p (List.mem_cons_self p ps)
    have hps : ∀ c ∈ ps, c ≠ '%' ∧ c ≠ '_' :=
      fun c hc => h c (List.mem_cons_of_mem _ hc)
    cases s with
    | nil => simp [likeMatch, listStartsWith, hp.1]
    | cons c t => simp [likeMatch, listStartsWith, hp.1, hp.2, ih hps t]

theorem tailsL_map {α β : Type} (f : α → β) (l : List α) :
    tailsL (l.map f) = (tailsL l).map (List.map f) := by
  induction l with
  | nil => rfl
  | cons a t ih => simp [tailsL, ih]

/-- SQLite's `LIKE '%search%'` (wildcard-free `search`) is
case-insensitive ASCII substring containment. -/
theorem likePat_eq_containsSeq (search : String)
    (h : ∀ c ∈ search.data, c ≠ '%' ∧ c ≠ '_') (hay : List Char) :
    likeMatch (likePat search) hay
      = containsSeq (search.data.map asciiLower) (hay.map asciiLower) := by
  have hA : (fun t => likeMatch (search.data ++ ['%']) t)
      = fun t => listStartsWith (search.data.map asciiLower)
          (t.map asciiLower) :=
    funext (likeMatch_append_pct search.data h)
  show (tailsL hay).any (fun t => likeMatch (search.data ++ ['%']) t) = _
  rw [hA, containsSeq, tailsL_map, List.any_map]
  rfl

theorem containsSeq_nil (hay : List Char) : containsSeq [] hay = true := by
  cases hay <;> rfl

/-- A store holding one answer row of student `"ABC"`. -/
def caseDemoStore : Store :=
  { emptyStore with answers := [⟨"ABC", "w", 1, "q", "a", "", false⟩] }

/-- Counterexample to C9 as stated: searching for `"abc"` returns the
row of student `"ABC"`, although `"abc"` is not a case-sensitive
substring of `"ABC"` — the SQLite default `LIKE` compares ASCII letters
case-insensitively. -/
theorem C9_counterexample :
    (load_answers none "abc" caseDemoStore).length = 1
    ∧ containsSeq "abc".data "ABC".data = false :=
  ⟨by decide, by decide⟩

/-- C9 amended: `load_answers` applies its two optional filters
conjunctively — an exact date-label match and a *case-insensitive*
(ASCII) substring containment match on `student_id` (stated for search
strings free of the SQL wildcards `%` and `_`) — and returns the
matching rows ordered by `(student_id, question_no)`; it is a pure
read, the store being no output of the function. -/
theorem C9_conjunctive_query (d search : String) (st : Store)
    (hd : d ≠ "") (hw : ∀ c ∈ search.data, c ≠ '%' ∧ c ≠ '_') :
    List.Perm (load_answers (some d) search st)
        (st.answers.filter (answerKeep (some d) search))
    ∧ List.Sorted answerOrd (load_answers (some d) search st)
    ∧ (∀ r : AnswerRow, answerKeep (some d) search r = true
        ↔ (r.date_week = d
           ∧ containsSeq (search.data.map asciiLower)
               (r.student_id.data.map asciiLower) = true)) := by
  refine ⟨List.perm_insertionSort answerOrd _,
    List.sorted_insertionSort answerOrd _, ?_⟩
  intro r
  by_cases hs : search = ""
  · subst hs
    simp [answerKeep, hd, containsSeq_nil]
  · rw [answerKeep]
    simp only [hd, if_false, hs, likePat_eq_containsSeq search hw]
    simp [Bool.and_eq_true, beq_iff_eq]

/-- Witness for C9 amended: on the demo store, the query for date `"w"`
and search `"abc"` returns a sorted permutation of the conjunctively
filtered rows. -/
theorem C9_conjunctive_query_witness :
    List.Perm (load_answers (some "w") "abc" caseDemoStore)
        (caseDemoStore.answers.filter (answerKeep (some "w") "abc"))
    ∧ List.Sorted answerOrd (load_answers (some "w") "abc" caseDemoStore) :=
  ⟨(C9_conjunctive_query "w" "abc" caseDemoStore (by decide) (by decide)).1,
   (C9_conjunctive_query "w" "abc" caseDemoStore (by decide) (by decide)).2.1⟩

end Score5002
